import Mathlib

/-!
Verification of the scenario catalog builder in
`src/main/python/smart/smartdata_run.py`.

The program declares scenario metadata tuples, groups them by analysis
year, concatenates the groups into one catalog, assembles a run
configuration dictionary, and makes a single call to the external
collaborator `smartdata_setup.make_plots`, printing "END" afterwards.
-/

/-- ScenarioRecord: the seven-field tuple schema used by every scenario
constant in `smartdata_run.py`:
`(id, year, horizon_span, group, tech_label, slug, source_uri)`. -/
structure ScenarioRecord where
  id : Nat
  year : Nat
  horizon_span : Nat
  group : String
  tech_label : String
  slug : String
  source_uri : String
deriving DecidableEq, Repr

/-- Line 5 of the source. -/
def baseline_2010 : ScenarioRecord :=
  ⟨1, 2010, 15, "base", "Base", "baseline", "https://beam-outputs.s3.amazonaws.com/output/sfbay/sfbay-smart-base-2010__2019-09-20_21-12-45"⟩

/-- Line 10 of the source. -/
def a_lt_2010 : ScenarioRecord :=
  ⟨6, 2010, 15, "a", "Low Tech", "a_lt", "https://beam-outputs.s3.amazonaws.com/output/sfbay/sfbay-smart-a-lt-2010__2019-09-20_21-12-45"⟩

/-- Line 11 of the source. -/
def a_ht_2010 : ScenarioRecord :=
  ⟨7, 2010, 15, "a", "High Tech", "a_ht", "https://beam-outputs.s3.amazonaws.com/output/sfbay/sfbay-smart-a-ht-2010__2019-09-20_21-12-45"⟩

/-- Line 12 of the source. -/
def b_lt_2010 : ScenarioRecord :=
  ⟨8, 2010, 15, "b", "Low Tech", "b_lt", "https://beam-outputs.s3.amazonaws.com/output/sfbay/sfbay-smart-b-lt-2010__2019-09-20_21-12-45"⟩

/-- Line 13 of the source. -/
def b_ht_2010 : ScenarioRecord :=
  ⟨9, 2010, 15, "b", "High Tech", "b_ht", "https://beam-outputs.s3.amazonaws.com/output/sfbay/sfbay-smart-b-ht-2010__2019-09-20_21-12-46"⟩

/-- Line 14 of the source. -/
def c_lt_2010 : ScenarioRecord :=
  ⟨10, 2010, 15, "c", "Low Tech", "c_lt", "https://beam-outputs.s3.amazonaws.com/output/sfbay/sfbay-smart-c-lt-2010__2019-09-20_21-12-45"⟩

/-- Line 15 of the source. -/
def c_ht_2010 : ScenarioRecord :=
  ⟨11, 2010, 15, "c", "High Tech", "c_ht", "https://beam-outputs.s3.amazonaws.com/output/sfbay/sfbay-smart-c-ht-2010__2019-09-20_21-12-45"⟩

/-- Line 18 of the source. -/
def baseline_2025 : ScenarioRecord :=
  ⟨1, 2025, 15, "base", "Base", "baseline", "https://beam-outputs.s3.amazonaws.com/output/sfbay/sfbay-smart-base-2025__2019-09-20_21-12-45"⟩

/-- Line 19 of the source. -/
def base_2030lt_2025 : ScenarioRecord :=
  ⟨2, 2025, 15, "base", "2030 Low Tech", "base_fleet_2030_lt", "https://beam-outputs.s3.amazonaws.com/output/sfbay/sfbay-smart-base-2030-lt-2025__2019-09-20_21-13-01"⟩

/-- Line 20 of the source. -/
def base_2030ht_2025 : ScenarioRecord :=
  ⟨3, 2025, 15, "base", "2030 High Tech", "base_fleet_2030_ht", "https://beam-outputs.s3.amazonaws.com/output/sfbay/sfbay-smart-base-2030-ht-2025__2019-09-20_21-13-12"⟩

/-- Line 23 of the source. -/
def a_lt_2025 : ScenarioRecord :=
  ⟨6, 2025, 15, "a", "Low Tech", "a_lt", "https://beam-outputs.s3.amazonaws.com/output/sfbay/sfbay-smart-a-lt-2025__2019-09-20_21-12-45"⟩

/-- Line 24 of the source. -/
def a_ht_2025 : ScenarioRecord :=
  ⟨7, 2025, 15, "a", "High Tech", "a_ht", "https://beam-outputs.s3.amazonaws.com/output/sfbay/sfbay-smart-a-ht-2025__2019-09-20_21-12-45"⟩

/-- Line 31 of the source. -/
def baseline_2040 : ScenarioRecord :=
  ⟨1, 2040, 15, "base", "Base", "baseline", "https://beam-outputs.s3.amazonaws.com/output/sfbay/sfbay-smart-base-2040__2019-09-20_21-12-45"⟩

/-- Line 34 of the source. -/
def base_2045lt_2040 : ScenarioRecord :=
  ⟨4, 2040, 15, "base", "2045 Low Tech", "base_fleet_2045_lt", "https://beam-outputs.s3.amazonaws.com/output/sfbay/sfbay-smart-base-2045-lt-2040__2019-09-22_19-47-05"⟩

/-- Line 35 of the source. -/
def base_2045ht_2040 : ScenarioRecord :=
  ⟨5, 2040, 15, "base", "2045 High Tech", "base_fleet_2045_ht", "https://beam-outputs.s3.amazonaws.com/output/sfbay/sfbay-smart-base-2045-ht-2040__2019-09-22_19-47-05"⟩

/-- Line 38 of the source. -/
def b_lt_2040 : ScenarioRecord :=
  ⟨8, 2040, 15, "b", "Low Tech", "b_lt", "https://beam-outputs.s3.amazonaws.com/output/sfbay/sfbay-smart-b-lt-2040__2019-09-20_21-12-45"⟩

/-- Line 39 of the source. -/
def b_ht_2040 : ScenarioRecord :=
  ⟨9, 2040, 15, "b", "High Tech", "b_ht", "https://beam-outputs.s3.amazonaws.com/output/sfbay/sfbay-smart-b-ht-2040__2019-09-20_21-12-45"⟩

/-- Line 40 of the source. -/
def c_lt_2040 : ScenarioRecord :=
  ⟨10, 2040, 15, "c", "Low Tech", "c_lt", "https://beam-outputs.s3.amazonaws.com/output/sfbay/sfbay-smart-c-lt-2040__2019-09-20_21-12-45"⟩

/-- Line 41 of the source. -/
def c_ht_2040 : ScenarioRecord :=
  ⟨11, 2040, 15, "c", "High Tech", "c_ht", "https://beam-outputs.s3.amazonaws.com/output/sfbay/sfbay-smart-c-ht-2040__2019-09-20_21-12-45"⟩

/-- Line 44 of the source: the 2010 scenario group. -/
def scenarios_2010 : List ScenarioRecord :=
  [baseline_2010, a_lt_2010, a_ht_2010, b_lt_2010, b_ht_2010, c_lt_2010, c_ht_2010]

/-- Lines 45-46 of the source: the 2025 scenario group. -/
def scenarios_2025 : List ScenarioRecord :=
  [baseline_2025, base_2030lt_2025, base_2030ht_2025, a_lt_2025, a_ht_2025]

/-- Line 47 of the source: the 2040 scenario group. -/
def scenarios_2040 : List ScenarioRecord :=
  [baseline_2040, base_2045lt_2040, base_2045ht_2040, b_lt_2040, b_ht_2040, c_lt_2040, c_ht_2040]

/-- Catalog construction, the `build_catalog` operation of the spec:
the source builds the catalog by the Python list concatenation
`scenarios_2010 + scenarios_2025 + scenarios_2040` (line 49), which on an
arbitrary ordered sequence of groups is the fold of `++`. -/
def build_catalog (groups : List (List ScenarioRecord)) : List ScenarioRecord :=
  groups.foldr (fun g acc => g ++ acc) []

/-- Line 49 of the source: `scenarios = scenarios_2010 + scenarios_2025 + scenarios_2040`. -/
def scenarios : List ScenarioRecord :=
  scenarios_2010 ++ scenarios_2025 ++ scenarios_2040

/-- RunConfig: the shape of the configuration dictionary of lines 51-55,
with exactly the keys `run_name`, `home_dir`, `scenarios`. -/
structure RunConfig where
  run_name : String
  home_dir : String
  scenarios : List ScenarioRecord
deriving DecidableEq, Repr

/-- The `build_run_config` operation of the spec: plain construction of the
dictionary literal of lines 51-55, with no validation of any field. -/
def build_run_config (run_name : String) (home_dir : String)
    (catalog : List ScenarioRecord) : RunConfig :=
  ⟨run_name, home_dir, catalog⟩

/-- Lines 51-55 of the source: the concrete configuration dictionary. -/
def setup_config_dict : RunConfig :=
  ⟨"20thSep2019", "/home/ubuntu/git/jupyter/data", scenarios⟩

/-- Observable events of the program: a call to the external collaborator
`smartdata_setup.make_plots`, or a line printed to standard output. -/
inductive Event where
  | call : RunConfig → Event
  | print : String → Event
deriving DecidableEq, Repr

/-- Recognizer for collaborator-call events. -/
def Event.isCall : Event → Bool
  | Event.call _ => true
  | Event.print _ => false

/-- Trace semantics of lines 58-60 of the source, applied to an arbitrary
configuration: call `make_plots` on the configuration; if it returns
normally, print "END" and finish normally; if it raises, the failure
propagates unchanged and nothing more is printed. The external
collaborator is a parameter, its possible failure modelled by `Except`. -/
def execute {ε : Type} (make_plots : RunConfig → Except ε Unit)
    (config : RunConfig) : List Event × Except ε Unit :=
  match make_plots config with
  | Except.ok _ => ([Event.call config, Event.print "END"], Except.ok ())
  | Except.error e => ([Event.call config], Except.error e)

/-- The whole program of `smartdata_run.py`: lines 58-60 run on the
configuration assembled at lines 51-55. -/
def runProgram {ε : Type} (make_plots : RunConfig → Except ε Unit) :
    List Event × Except ε Unit :=
  execute make_plots setup_config_dict

/-- Boolean check that string `s` begins with string `p`, by structural
recursion on the character lists. -/
def charListLE : List Char → List Char → Bool
  | [], _ => true
  | _ :: _, [] => false
  | c :: cs, d :: ds => c == d && charListLE cs ds

/-- Check that a string starts with a given leading string. -/
def strStarts (s p : String) : Bool :=
  charListLE p.data s.data

/-- The record with a malformed `source_uri` used as a concrete pass-through
input (a test vector, not a record of the source). -/
def malformed_record : ScenarioRecord :=
  ⟨99, 2010, 15, "base", "Base", "bad", "::not a uri::"⟩

/-- build_catalog distributes over appending two group sequences. -/
theorem build_catalog_append (xs ys : List (List ScenarioRecord)) :
    build_catalog (xs ++ ys) = build_catalog xs ++ build_catalog ys := by
  induction xs with
  | nil => simp [build_catalog]
  | cons g gs ih =>
      simp only [build_catalog, List.cons_append, List.foldr_cons] at *
      rw [ih, List.append_assoc]

/-- build_catalog on a cons unfolds to an append. -/
theorem build_catalog_cons (g : List ScenarioRecord)
    (gs : List (List ScenarioRecord)) :
    build_catalog (g :: gs) = g ++ build_catalog gs := rfl

/-- build_catalog is the flattening of the group sequence. -/
theorem build_catalog_eq_join (groups : List (List ScenarioRecord)) :
    build_catalog groups = groups.flatten := by
  induction groups with
  | nil => rfl
  | cons g gs ih => rw [build_catalog_cons, ih, List.flatten_cons]

/-- C1: for every ordered sequence of scenario groups, build_catalog returns
exactly the concatenation of the groups in order: whichever group stands at
some position, the catalog is exactly the earlier groups flattened, then
that group intact and in its original order, then the later groups
flattened, with no records added, dropped, deduplicated or sorted; and in
the observed instance the catalog is the 2010 group followed by the 2025
group followed by the 2040 group. -/
theorem build_catalog_preserves_group_order
    (pre post : List (List ScenarioRecord)) (g : List ScenarioRecord) :
    build_catalog (pre ++ g :: post) =
      build_catalog pre ++ (g ++ build_catalog post) ∧
    scenarios = scenarios_2010 ++ scenarios_2025 ++ scenarios_2040 := by
  refine ⟨?_, rfl⟩
  rw [build_catalog_append, build_catalog_cons]

/-- C2 counterexample: in the catalog built by the program, the id field is
not unique: index 0 holds the 2010 baseline and index 7 the 2025 baseline,
two distinct enabled records sharing id 1, so the id projection of the
catalog has a duplicate. -/
theorem scenarios_id_not_unique :
    scenarios[0]? = some baseline_2010 ∧
    scenarios[7]? = some baseline_2025 ∧
    baseline_2010.id = baseline_2025.id ∧
    baseline_2010 ≠ baseline_2025 ∧
    ¬ (scenarios.map ScenarioRecord.id).Nodup := by decide

/-- C2 amended: the id field is unique within each year group, and the pair
of id and year is unique across the whole built catalog. -/
theorem scenarios_id_unique_within_group :
    (scenarios_2010.map ScenarioRecord.id).Nodup ∧
    (scenarios_2025.map ScenarioRecord.id).Nodup ∧
    (scenarios_2040.map ScenarioRecord.id).Nodup ∧
    (scenarios.map fun r => (r.id, r.year)).Nodup := by decide

/-- C3: the program invokes the external plotting collaborator exactly once
with the fully assembled configuration (it is the first event of the
trace), the marker END is printed exactly when the collaborator returns
normally, and if the collaborator raises then the failure propagates
unchanged and END is not printed. -/
theorem execute_calls_once_end_only_on_success {ε : Type}
    (make_plots : RunConfig → Except ε Unit) :
    (runProgram make_plots).1.countP Event.isCall = 1 ∧
    (runProgram make_plots).1.head? = some (Event.call setup_config_dict) ∧
    (Event.print "END" ∈ (runProgram make_plots).1 ↔
      make_plots setup_config_dict = Except.ok ()) ∧
    (∀ e, make_plots setup_config_dict = Except.error e →
      runProgram make_plots = ([Event.call setup_config_dict], Except.error e)) := by
  cases h : make_plots setup_config_dict with
  | ok u =>
      cases u
      refine ⟨?_, ?_, ?_, ?_⟩
      · simp [runProgram, execute, h, Event.isCall]
      · simp [runProgram, execute, h]
      · simp [runProgram, execute, h]
      · intro e he
        simp at he
  | error e =>
      refine ⟨?_, ?_, ?_, ?_⟩
      · simp [runProgram, execute, h, Event.isCall]
      · simp [runProgram, execute, h]
      · simp [runProgram, execute, h]
      · intro e2 he
        cases he
        simp [runProgram, execute, h]

/-- Witness for C3 at a concrete always-failing collaborator. -/
theorem execute_calls_once_end_only_on_success_witness :
    runProgram (fun _ => Except.error 0) =
      ([Event.call setup_config_dict], Except.error 0) :=
  (execute_calls_once_end_only_on_success (fun _ => Except.error 0)).2.2.2 0 rfl

/-- C4: the run configuration is a record with exactly the fields run_name,
home_dir and scenarios (every RunConfig is determined by those three
fields), build_run_config stores each argument untouched with no
validation, and the configuration of the source is exactly the
construction from its three literal arguments. -/
theorem build_run_config_pure (r h : String) (c : List ScenarioRecord) :
    (build_run_config r h c).run_name = r ∧
    (build_run_config r h c).home_dir = h ∧
    (build_run_config r h c).scenarios = c ∧
    (∀ cfg : RunConfig, cfg = build_run_config cfg.run_name cfg.home_dir cfg.scenarios) ∧
    setup_config_dict = build_run_config "20thSep2019" "/home/ubuntu/git/jupyter/data" scenarios := by
  refine ⟨rfl, rfl, rfl, ?_, rfl⟩
  intro cfg
  cases cfg
  rfl

/-- C5: every record is passed through unchanged by the builder: the catalog
holds each record exactly as many times as the input groups do, a record
lies in the catalog exactly when it lies in some group, and a concrete
record with a malformed source_uri flows through build_catalog and
build_run_config identical to the record supplied. -/
theorem records_pass_through_unchanged (groups : List (List ScenarioRecord))
    (rec : ScenarioRecord) :
    (build_catalog groups).count rec = (groups.map fun g => g.count rec).sum ∧
    (rec ∈ build_catalog groups ↔ ∃ g ∈ groups, rec ∈ g) ∧
    (build_run_config "x" "/tmp" (build_catalog [[malformed_record]])).scenarios =
      [malformed_record] := by
  refine ⟨?_, ?_, rfl⟩
  · induction groups with
    | nil => rfl
    | cons g gs ih =>
        rw [build_catalog_cons, List.count_append, List.map_cons, List.sum_cons, ih]
  · rw [build_catalog_eq_join]
    exact List.mem_flatten

/-- C6: build_catalog is deterministic: identical input group sequences
yield identical output catalogs. -/
theorem build_catalog_deterministic (groups1 groups2 : List (List ScenarioRecord))
    (h : groups1 = groups2) :
    build_catalog groups1 = build_catalog groups2 :=
  congrArg build_catalog h

/-- Witness for C6 at a concrete input. -/
theorem build_catalog_deterministic_witness :
    build_catalog [scenarios_2010] = build_catalog [scenarios_2010] :=
  build_catalog_deterministic [scenarios_2010] [scenarios_2010] rfl

/-- C7: catalog construction is associative under re-grouping: splitting any
one group into two adjacent sub-groups and concatenating yields the same
flattened catalog as the original grouping. -/
theorem build_catalog_regroup (pre post : List (List ScenarioRecord))
    (g1 g2 : List ScenarioRecord) :
    build_catalog (pre ++ (g1 ++ g2) :: post) =
      build_catalog (pre ++ g1 :: g2 :: post) := by
  rw [build_catalog_append, build_catalog_append, build_catalog_cons,
    build_catalog_cons, build_catalog_cons, List.append_assoc]

/-- C8: empty inputs are permitted and forwarded: an empty group list yields
an empty catalog, an empty group contributes zero records, build_run_config
on an empty catalog yields a configuration with an empty scenarios field,
and execute on it still performs exactly one collaborator call, carrying
that empty catalog. -/
theorem empty_inputs_forwarded {ε : Type} (make_plots : RunConfig → Except ε Unit)
    (pre post : List (List ScenarioRecord)) :
    build_catalog [] = [] ∧
    build_catalog (pre ++ [] :: post) = build_catalog (pre ++ post) ∧
    (build_run_config "x" "/tmp" (build_catalog [])).scenarios = [] ∧
    (execute make_plots (build_run_config "x" "/tmp" [])).1.countP Event.isCall = 1 ∧
    (execute make_plots (build_run_config "x" "/tmp" [])).1.head? =
      some (Event.call (build_run_config "x" "/tmp" [])) := by
  refine ⟨rfl, ?_, rfl, ?_, ?_⟩
  · rw [build_catalog_append, build_catalog_cons, build_catalog_append]
    rfl
  · cases h : make_plots (build_run_config "x" "/tmp" []) <;>
      simp [execute, h, Event.isCall]
  · cases h : make_plots (build_run_config "x" "/tmp" []) <;>
      simp [execute, h]

/-- C9: every scenario group of the program is year-homogeneous: each record
of the 2010, 2025 and 2040 group lists carries year 2010, 2025 and 2040
respectively, the groups hold 7, 5 and 7 records, and every record is
exactly its seven schema fields. -/
theorem groups_year_homogeneous :
    (scenarios_2010.all fun r => r.year == 2010) = true ∧
    (scenarios_2025.all fun r => r.year == 2025) = true ∧
    (scenarios_2040.all fun r => r.year == 2040) = true ∧
    scenarios_2010.length = 7 ∧ scenarios_2025.length = 5 ∧
    scenarios_2040.length = 7 ∧
    (∀ r : ScenarioRecord,
      r = ⟨r.id, r.year, r.horizon_span, r.group, r.tech_label, r.slug, r.source_uri⟩) := by
  refine ⟨by decide, by decide, by decide, rfl, rfl, rfl, ?_⟩
  intro r
  cases r
  rfl

/-- C10: every enabled record of the built catalog has horizon_span 15 and a
source_uri beginning with the beam-outputs sfbay URL, so no enabled record
carries a bare non-URL path. -/
theorem enabled_records_horizon_and_uri :
    (scenarios.all fun r => r.horizon_span == 15 &&
      strStarts r.source_uri "https://beam-outputs.s3.amazonaws.com/output/sfbay/") = true := by
  decide
